import Mathlib

set_option maxRecDepth 100000

/-
Verification of the Unicode format-translation core of NppCppMSVS.

Shallow embedding of src/src/Framework/UnicodeFormatTranslation.h and of the
chunked external-codec adapter in src/src/Framework/UtilityFrameworkMIT.h.

Modelling conventions:
* 8-bit units (char) are naturals holding the byte value 0..255;
  static_cast<char> sites are written `% 256` where the operand is not a
  literal byte.
* 16-bit units (wchar_t, unsigned 16-bit on the target platform) are naturals
  0..65535; static_cast<wchar_t> sites and implicit int-to-wchar_t
  conversions are written `% 65536`.
* 32-bit units (char32_t) are naturals below 2^32; no append in the source
  can exceed that range, so no mod is needed on 32-bit appends.
* std::string / std::wstring / std::u32string values are Lists of naturals;
  the indexed loops of the source become recursion on the list, one loop
  iteration per step, with the loop's lookahead reads matched positionally.
  Each loop is driven by a fuel argument spent one unit per iteration; since
  every iteration consumes at least one input unit, fuel equal to the input
  length (as supplied by each wrapper) is always sufficient, and the
  fuel-exhausted alternatives are unreachable.
* utf8to32 returns an Option: the source's 4-byte case evaluates s[i + 3]
  whether or not i + 3 is within bounds (the comma operator on line 105
  disconnects the length test from the branch), so an input that reaches
  that case with fewer than three bytes after the lead makes the source read
  out of bounds - undefined behavior, modelled as `none`.  Every other
  converter is total, as in the source.
-/

inductive InvalidUnicode
  | Substitute
  | Preserve_8
  | Preserve_16
  deriving DecidableEq, BEq, Repr

namespace utf8byte

/-- Source line 35: `(c & 0x80) == 0x00`. -/
def isASCII (c : Nat) : Bool := c &&& 0x80 == 0x00

/-- Source line 36: `(c & 0xC0) == 0x80`. -/
def isTrail (c : Nat) : Bool := c &&& 0xC0 == 0x80

/-- Source line 37: `(c & 0xE0) == 0xC0 && (c & 0xFE) != 0xC0`. -/
def isLead2 (c : Nat) : Bool := c &&& 0xE0 == 0xC0 && c &&& 0xFE != 0xC0

/-- Source line 38: `(c & 0xF0) == 0xE0`. -/
def isLead3 (c : Nat) : Bool := c &&& 0xF0 == 0xE0

/-- Source line 39: `(c & 0xFC) == 0xF0 || c == 0xF4`. -/
def isLead4 (c : Nat) : Bool := c &&& 0xFC == 0xF0 || c == 0xF4

/-- Source line 40. -/
def isTrash (c : Nat) : Bool :=
  c &&& 0xFE == 0xC0 || (c &&& 0xF0 == 0xF0 && c &&& 0x0C != 0x00 && c != 0xF4)

/-- Source lines 41-44: checks first two of 3- or 4-byte sequences. -/
def badPair (c1 c2 : Nat) : Bool :=
  (c1 == 0xE0 && decide (c2 < 0xA0)) || (c1 == 0xED && decide (c2 > 0x9F)) ||
  (c1 == 0xF0 && decide (c2 < 0x90)) || (c1 == 0xF4 && decide (c2 > 0x8F))

/-- Source lines 45-51. -/
def implicit_length (c : Nat) : Nat :=
  if isASCII c then 1
  else if isLead2 c then 2
  else if isLead3 c then 3
  else if isLead4 c then 4
  else 0

/-- Source line 52 (the three-argument valid_trail overload). -/
def valid_trail3 (c1 c2 c3 : Nat) : Bool :=
  !badPair c1 c2 && isTrail c2 && isTrail c3

/-- Source line 53 (the four-argument valid_trail overload). -/
def valid_trail4 (c1 c2 c3 c4 : Nat) : Bool :=
  !badPair c1 c2 && isTrail c2 && isTrail c3 && isTrail c4

/-- Source line 54 (the two-argument to32 overload). -/
def to32_2 (c1 c2 : Nat) : Nat := ((c1 &&& 0x1F) <<< 6) ||| (c2 &&& 0x3F)

/-- Source line 55 (the three-argument to32 overload). -/
def to32_3 (c1 c2 c3 : Nat) : Nat :=
  ((c1 &&& 0x0F) <<< 12) ||| ((c2 &&& 0x3F) <<< 6) ||| (c3 &&& 0x3F)

/-- Source line 56 (the four-argument to32 overload). -/
def to32_4 (c1 c2 c3 c4 : Nat) : Nat :=
  ((c1 &&& 0x07) <<< 18) ||| ((c2 &&& 0x3F) <<< 12) ||| ((c3 &&& 0x3F) <<< 6) ||| (c4 &&& 0x3F)

end utf8byte

/-- Loop of utf16to32 (source lines 64-70). -/
def utf16to32go : Nat → List Nat → List Nat
  | 0, _ => []
  | _ + 1, [] => []
  | fuel + 1, c :: rest =>
    match rest with
    | c2 :: rest2 =>
      if 0xD800 ≤ c ∧ c < 0xDC00 ∧ 0xDC00 ≤ c2 ∧ c2 ≤ 0xDFFF then
        ((((c &&& 0x7FF) <<< 10) ||| (c2 &&& 0x3FF)) + 0x10000) :: utf16to32go fuel rest2
      else c :: utf16to32go fuel rest
    | [] => [c]

/-- Source lines 62-72: utf16to32.  A high surrogate immediately followed by a
low surrogate is combined; any other unit passes through unchanged. -/
def utf16to32 (w : List Nat) : List Nat := utf16to32go w.length w

/-- Source lines 74-84: utf32to16.  Values at or above 0x10000 are split with
the surrogate formulas (no upper-range check); each half is cast to wchar_t,
hence the `% 65536`.  Smaller values are cast through wchar_t directly. -/
def utf32to16 : List Nat → List Nat
  | [] => []
  | c :: rest =>
    if 0x10000 ≤ c then
      (0xD800 + ((c - 0x10000) >>> 10)) % 65536 ::
      (0xDC00 + (c &&& 0x3FF)) % 65536 :: utf32to16 rest
    else c % 65536 :: utf32to16 rest

/-- Source lines 86-113: utf8to32.  The structure of the switch on
implicit_length and of each guard is kept one-for-one.  In the 4-byte case the
source reads `if (i + 3 >= s.length() || !utf8byte::valid_trail(s[i], s[i+1],
s[i+2]), s[i+3]) break;` - a comma expression whose left operand (the length
test and the three-argument valid_trail call) is evaluated and discarded, so
the branch is controlled by `s[i + 3] != 0` alone, and `s[i + 3]` is read even
when `i + 3 >= s.length()` (out of bounds: undefined behavior, modelled as
`none`).  When the break is not taken the source appends
`to32(s[i], s[i+1], s[i+2])` (the three-argument overload) and advances by
four bytes. -/
def utf8to32go (errs : InvalidUnicode) : Nat → List Nat → Option (List Nat)
  | 0, _ => some []
  | _ + 1, [] => some []
  | fuel + 1, c1 :: rest =>
    let badv := if errs == InvalidUnicode.Preserve_8 then 0xDC00 + c1 else 0xFFFD
    let n := utf8byte.implicit_length c1
    if n == 1 then
      (utf8to32go errs fuel rest).map fun u => c1 :: u
    else if n == 2 then
      match rest with
      | c2 :: rest2 =>
        if !utf8byte.isTrail c2 then (utf8to32go errs fuel rest).map fun u => badv :: u
        else (utf8to32go errs fuel rest2).map fun u => utf8byte.to32_2 c1 c2 :: u
      | [] => (utf8to32go errs fuel rest).map fun u => badv :: u
    else if n == 3 then
      match rest with
      | c2 :: c3 :: rest3 =>
        if !utf8byte.isTrail c2 || !utf8byte.isTrail c3 then
          (utf8to32go errs fuel rest).map fun u => badv :: u
        else if (!(errs == InvalidUnicode.Preserve_16) || !(c1 == 0xED)) && utf8byte.badPair c1 c2 then
          (utf8to32go errs fuel rest).map fun u => badv :: u
        else (utf8to32go errs fuel rest3).map fun u => utf8byte.to32_3 c1 c2 c3 % 65536 :: u
      | _ => (utf8to32go errs fuel rest).map fun u => badv :: u
    else if n == 4 then
      match rest with
      | c2 :: c3 :: c4 :: rest4 =>
        if !(c4 == 0) then (utf8to32go errs fuel rest).map fun u => badv :: u
        else (utf8to32go errs fuel rest4).map fun u => utf8byte.to32_3 c1 c2 c3 :: u
      | _ => none
    else
      (utf8to32go errs fuel rest).map fun u => badv :: u

/-- Source lines 86-113: utf8to32 (see utf8to32go). -/
def utf8to32 (errs : InvalidUnicode) (s : List Nat) : Option (List Nat) :=
  utf8to32go errs s.length s

/-- Source lines 115-141: utf32to8.  Branch order as in the source: ASCII,
2-byte, surrogate range when the policy is not Preserve_16 (with the
Preserve_8 low-byte escape for 0xDC80..0xDCFF), then `c <= 0x10000` for the
3-byte form (the boundary is `<=`, so 0x10000 itself takes the 3-byte
branch), then `c <= 0x110000` for the 4-byte form, else the replacement
bytes. -/
def utf32to8 (errs : InvalidUnicode) : List Nat → List Nat
  | [] => []
  | c :: rest =>
    if c < 0x80 then c % 256 :: utf32to8 errs rest
    else if c < 0x800 then
      ((c >>> 6) ||| 0xC0) % 256 :: ((c &&& 0x3F) ||| 0x80) % 256 :: utf32to8 errs rest
    else if 0xD800 ≤ c ∧ c ≤ 0xDFFF ∧ ¬(errs = InvalidUnicode.Preserve_16) then
      if errs = InvalidUnicode.Preserve_8 ∧ 0xDC80 ≤ c ∧ c ≤ 0xDCFF then
        (0xFF &&& c) % 256 :: utf32to8 errs rest
      else 0xEF :: 0xBF :: 0xBD :: utf32to8 errs rest
    else if c ≤ 0x10000 then
      ((c >>> 12) ||| 0xE0) % 256 :: (((c >>> 6) &&& 0x3F) ||| 0x80) % 256 ::
      ((c &&& 0x3F) ||| 0x80) % 256 :: utf32to8 errs rest
    else if c ≤ 0x110000 then
      ((c >>> 18) ||| 0xF0) % 256 :: (((c >>> 12) &&& 0x3F) ||| 0x80) % 256 ::
      (((c >>> 6) &&& 0x3F) ||| 0x80) % 256 :: ((c &&& 0x3F) ||| 0x80) % 256 :: utf32to8 errs rest
    else 0xEF :: 0xBF :: 0xBD :: utf32to8 errs rest

/-- Source lines 143-172: utf8to16.  Same switch structure as utf8to32; the
4-byte case here uses the correct four-argument valid_trail guard and splits
the assembled code point into a surrogate pair. -/
def utf8to16go (errs : InvalidUnicode) : Nat → List Nat → List Nat
  | 0, _ => []
  | _ + 1, [] => []
  | fuel + 1, c1 :: rest =>
    let badv := (if errs == InvalidUnicode.Preserve_8 then 0xDC00 + c1 else 0xFFFD) % 65536
    let n := utf8byte.implicit_length c1
    if n == 1 then c1 :: utf8to16go errs fuel rest
    else if n == 2 then
      match rest with
      | c2 :: rest2 =>
        if !utf8byte.isTrail c2 then badv :: utf8to16go errs fuel rest
        else utf8byte.to32_2 c1 c2 % 65536 :: utf8to16go errs fuel rest2
      | [] => badv :: utf8to16go errs fuel rest
    else if n == 3 then
      match rest with
      | c2 :: c3 :: rest3 =>
        if !utf8byte.isTrail c2 || !utf8byte.isTrail c3 then badv :: utf8to16go errs fuel rest
        else if (!(errs == InvalidUnicode.Preserve_16) || !(c1 == 0xED)) && utf8byte.badPair c1 c2 then
          badv :: utf8to16go errs fuel rest
        else utf8byte.to32_3 c1 c2 c3 % 65536 :: utf8to16go errs fuel rest3
      | _ => badv :: utf8to16go errs fuel rest
    else if n == 4 then
      match rest with
      | c2 :: c3 :: c4 :: rest4 =>
        if !utf8byte.valid_trail4 c1 c2 c3 c4 then badv :: utf8to16go errs fuel rest
        else
          let u := utf8byte.to32_4 c1 c2 c3 c4
          (0xD800 + ((u - 0x10000) >>> 10)) % 65536 ::
          (0xDC00 + (u &&& 0x3FF)) % 65536 :: utf8to16go errs fuel rest4
      | _ => badv :: utf8to16go errs fuel rest
    else badv :: utf8to16go errs fuel rest

/-- Source lines 143-172: utf8to16 (see utf8to16go). -/
def utf8to16 (errs : InvalidUnicode) (s : List Nat) : List Nat :=
  utf8to16go errs s.length s

/-- Source lines 174-207: utf16to8.  The third branch keeps the source's
condition `c < 0xD800 && c > 0xDFFF` literally (it is never true, so every
unit at or above 0x800 falls into the surrogate-handling else branch).  In
that branch the source pairs the current unit with any following unit in
0xDC00..0xDFFF (without checking that the current unit is a high surrogate),
then tries the Preserve_8 low-byte escape, then the Preserve_16 3-byte form
with the fixed lead 0xED, else the replacement bytes. -/
def utf16to8go (errs : InvalidUnicode) : Nat → List Nat → List Nat
  | 0, _ => []
  | _ + 1, [] => []
  | fuel + 1, c :: rest =>
    if c < 0x80 then c % 256 :: utf16to8go errs fuel rest
    else if c < 0x800 then
      ((c >>> 6) ||| 0xC0) % 256 :: ((c &&& 0x3F) ||| 0x80) % 256 :: utf16to8go errs fuel rest
    else if c < 0xD800 ∧ c > 0xDFFF then
      ((c >>> 12) ||| 0xE0) % 256 :: (((c >>> 6) &&& 0x3F) ||| 0x80) % 256 ::
      ((c &&& 0x3F) ||| 0x80) % 256 :: utf16to8go errs fuel rest
    else
      match rest with
      | c2 :: rest2 =>
        if 0xDC00 ≤ c2 ∧ c2 ≤ 0xDFFF then
          let u := (((c &&& 0x7FF) <<< 10) ||| (c2 &&& 0x3FF)) + 0x10000
          ((u >>> 18) ||| 0xF0) % 256 :: (((u >>> 12) &&& 0x3F) ||| 0x80) % 256 ::
          (((u >>> 6) &&& 0x3F) ||| 0x80) % 256 :: ((u &&& 0x3F) ||| 0x80) % 256 ::
          utf16to8go errs fuel rest2
        else if errs = InvalidUnicode.Preserve_8 ∧ 0xDC80 ≤ c ∧ c ≤ 0xDCFF then
          (0xFF &&& c) % 256 :: utf16to8go errs fuel rest
        else if errs = InvalidUnicode.Preserve_16 then
          0xED :: (((c >>> 6) &&& 0x3F) ||| 0x80) % 256 ::
          ((c &&& 0x3F) ||| 0x80) % 256 :: utf16to8go errs fuel rest
        else 0xEF :: 0xBF :: 0xBD :: utf16to8go errs fuel rest
      | [] =>
        if errs = InvalidUnicode.Preserve_8 ∧ 0xDC80 ≤ c ∧ c ≤ 0xDCFF then
          (0xFF &&& c) % 256 :: utf16to8go errs fuel rest
        else if errs = InvalidUnicode.Preserve_16 then
          0xED :: (((c >>> 6) &&& 0x3F) ||| 0x80) % 256 ::
          ((c &&& 0x3F) ||| 0x80) % 256 :: utf16to8go errs fuel rest
        else 0xEF :: 0xBF :: 0xBD :: utf16to8go errs fuel rest

/-- Source lines 174-207: utf16to8 (see utf16to8go). -/
def utf16to8 (errs : InvalidUnicode) (w : List Nat) : List Nat :=
  utf16to8go errs w.length w

/-
The chunked external-codec adapter of UtilityFrameworkMIT.h (fromWide, lines
37-57, and toWide, lines 59-79).  The external codec
(WideCharToMultiByte / MultiByteToWideChar) is a black box consumed at its
interface, so what is modelled is the sequence of chunks the loop hands to
it: a list of (workingPoint, length) pairs.  The per-call limit safeSize is a
fixed constant in the source (INT_MAX/8 respectively INT_MAX/2); it appears
here as the parameter L, as the boundary logic does not depend on its value.
The loop is driven by a fuel argument (one unit of fuel per iteration;
s.length is always enough fuel when L ≥ 2, since every iteration advances
workingPoint by at least one).  Faithfully to the source, the
surrogate/continuation test indexes the input at `ss - 1` respectively `ss`
- an absolute position, not one relative to workingPoint.
-/

/-- Loop of fromWide (source lines 43-51).  The shrink test on line 45 reads
`s[ss - 1]`, i.e. the absolute index safeSize - 1, on every iteration. -/
def fromWideGo (L : Nat) (s : List Nat) : Nat → Nat → List (Nat × Nat)
  | 0, workingPoint => [(workingPoint, s.length - workingPoint)]
  | fuel + 1, workingPoint =>
    if L < s.length - workingPoint then
      let ss := if 0xD800 ≤ s.getD (L - 1) 0 ∧ s.getD (L - 1) 0 ≤ 0xDBFF then L - 1 else L
      (workingPoint, ss) :: fromWideGo L s fuel (workingPoint + ss)
    else [(workingPoint, s.length - workingPoint)]

/-- The chunks fromWide passes to the external codec (source lines 37-57). -/
def fromWideChunks (L : Nat) (s : List Nat) : List (Nat × Nat) :=
  if s.length = 0 then [] else fromWideGo L s s.length 0

/-- The backward walk of toWide, source line 67: `while ((s[--ss] & 0xC0) ==
0x80);` starting from ss = safeSize - decrement, then test, until a
non-continuation byte is found; the result is the new ss.  (If every byte
below the start were a continuation byte the source would fall off the front
of the buffer; the model stops at 0.) -/
def toWideBack (s : List Nat) : Nat → Nat
  | 0 => 0
  | k + 1 => if s.getD k 0 &&& 0xC0 == 0x80 then toWideBack s k else k

/-- Loop of toWide (source lines 65-73) for codepage = CP_UTF8.  The
continuation-byte test on line 67 reads `s[ss]`, i.e. the absolute index
safeSize, on every iteration. -/
def toWideGo (L : Nat) (s : List Nat) : Nat → Nat → List (Nat × Nat)
  | 0, workingPoint => [(workingPoint, s.length - workingPoint)]
  | fuel + 1, workingPoint =>
    if L < s.length - workingPoint then
      let ss := if s.getD L 0 &&& 0xC0 == 0x80 then toWideBack s L else L
      (workingPoint, ss) :: toWideGo L s fuel (workingPoint + ss)
    else [(workingPoint, s.length - workingPoint)]

/-- The chunks toWide passes to the external codec (source lines 59-79),
for UTF-8 input. -/
def toWideChunks (L : Nat) (s : List Nat) : List (Nat × Nat) :=
  if s.length = 0 then [] else toWideGo L s s.length 0

/-
Theorems, one per claim C1..C10.
-/

/-- Claim C1 is violated by the code: for the valid UTF-8 input E4 B8 AD
(U+4E2D), decoding to 16-bit form gives the single unit 0x4E2D, but
re-encoding it returns the replacement bytes EF BF BD, not the original
bytes - the branch selecting the 3-byte form in utf16to8 tests
(c < 0xD800 && c > 0xDFFF), which is never true, so the unit falls into the
surrogate-handling branch.  The 32-bit leg fails as well: the valid 4-byte
input F0 90 80 80 decodes to four replacement characters because the comma
expression in the 4-byte case of utf8to32 discards the trail validation and
breaks whenever the fourth byte is nonzero. -/
theorem c1_valid_roundtrip_fails :
    utf8to16 InvalidUnicode.Substitute [0xE4, 0xB8, 0xAD] = [0x4E2D] ∧
    utf16to8 InvalidUnicode.Substitute
      (utf8to16 InvalidUnicode.Substitute [0xE4, 0xB8, 0xAD]) = [0xEF, 0xBF, 0xBD] ∧
    [0xEF, 0xBF, 0xBD] ≠ [0xE4, 0xB8, 0xAD] ∧
    (utf8to32 InvalidUnicode.Substitute [0xF0, 0x90, 0x80, 0x80]).map
        (utf32to8 InvalidUnicode.Substitute) =
      some [0xEF, 0xBF, 0xBD, 0xEF, 0xBF, 0xBD, 0xEF, 0xBF, 0xBD, 0xEF, 0xBF, 0xBD] := by
  decide

/-- Claim C2 is violated by the code: the byte sequence F0 90 80 00 is
consumed by the 4-byte case of utf8to32 as if it were valid (the comma
expression discards the trail validation, and the branch does not break
because the fourth byte is zero), producing the single code point 0x400
assembled by the three-argument to32 overload; re-encoding yields D0 80, not
the original four bytes, so the Preserve_8 round trip is not lossless on all
inputs. -/
theorem c2_preserve8_roundtrip_fails :
    (utf8to32 InvalidUnicode.Preserve_8 [0xF0, 0x90, 0x80, 0x00]).map
        (utf32to8 InvalidUnicode.Preserve_8) = some [0xD0, 0x80] ∧
    [0xD0, 0x80] ≠ [0xF0, 0x90, 0x80, 0x00] := by
  decide

/-- Claim C3 is violated by the code: the 16-bit sequence 0x4E2D, 0xD800
contains a lone surrogate, yet its Preserve_16 round trip through 8-bit form
returns 0xDE2D, 0xD800.  The always-false condition (c < 0xD800 && c >
0xDFFF) in utf16to8 sends the ordinary unit 0x4E2D into the
surrogate-handling branch, which emits the fixed lead byte 0xED with the low
12 bits of the unit; decoding that 3-byte pattern under Preserve_16
reconstitutes 0xDE2D instead of 0x4E2D.  The lone surrogate itself does
round-trip. -/
theorem c3_preserve16_roundtrip_fails :
    utf16to8 InvalidUnicode.Preserve_16 [0x4E2D, 0xD800] =
      [0xED, 0xB8, 0xAD, 0xED, 0xA0, 0x80] ∧
    utf8to16 InvalidUnicode.Preserve_16
      (utf16to8 InvalidUnicode.Preserve_16 [0x4E2D, 0xD800]) = [0xDE2D, 0xD800] ∧
    [0xDE2D, 0xD800] ≠ [0x4E2D, 0xD800] := by
  decide

/-- Claim C4 is violated by the code: with per-call limit 4, the 16-bit input
A A A A A A A high low A is chunked as (0,4), (4,4), (8,2), so the second
chunk ends with the high surrogate at index 7 whose low partner at index 8
begins the next chunk - the shrink test reads the unit at the absolute index
limit - 1 on every iteration instead of workingPoint + limit - 1, so only the
first chunk's boundary is ever adjusted.  toWide has the same defect for
UTF-8 input: the byte input A A A A A A E4 B8 AD A is chunked as (0,4),
(4,4), (8,2), and the second chunk ends at index 7 inside the 3-byte sequence
E4 B8 AD (the byte there is a continuation byte). -/
theorem c4_chunk_boundary_splits :
    fromWideChunks 4 [65, 65, 65, 65, 65, 65, 65, 0xD800, 0xDC00, 65] =
      [(0, 4), (4, 4), (8, 2)] ∧
    [65, 65, 65, 65, 65, 65, 65, 0xD800, 0xDC00, 65].getD 7 0 = 0xD800 ∧
    [65, 65, 65, 65, 65, 65, 65, 0xD800, 0xDC00, 65].getD 8 0 = 0xDC00 ∧
    toWideChunks 4 [65, 65, 65, 65, 65, 65, 0xE4, 0xB8, 0xAD, 65] =
      [(0, 4), (4, 4), (8, 2)] ∧
    [65, 65, 65, 65, 65, 65, 0xE4, 0xB8, 0xAD, 65].getD 7 0 &&& 0xC0 = 0x80 := by
  decide

/-- Claim C5 is violated by the code: under Substitute the malformed input
F0 90 80 00 (the fourth byte is not a continuation byte, so the bytes F0, 90
and 80 are invalid at their positions) should produce FFFD FFFD FFFD 0000,
advancing one unit per invalid byte; instead the comma expression in the
4-byte case of utf8to32 accepts the sequence, consumes all four bytes and
emits the single code point 0x400, which is neither U+FFFD nor any input
unit. -/
theorem c5_substitute_fails :
    utf8to32 InvalidUnicode.Substitute [0xF0, 0x90, 0x80, 0x00] = some [0x400] ∧
    some [(0x400 : Nat)] ≠ some [0xFFFD, 0xFFFD, 0xFFFD, 0x00] := by
  decide

/-- Claim C6 is violated by the code on the same input: the claim's concrete
examples do hold (a lone 0xFF byte becomes 0xDCFF under Preserve_8 and is
restored to 0xFF by utf32to8), but the universally quantified part fails -
in the malformed input F0 90 80 00 the invalid bytes F0, 90 and 80 are not
mapped to 0xDCF0, 0xDC90, 0xDC80: the defective 4-byte case consumes the
whole sequence and emits 0x400. -/
theorem c6_preserve8_escape_fails :
    utf8to32 InvalidUnicode.Preserve_8 [0xFF] = some [0xDCFF] ∧
    utf32to8 InvalidUnicode.Preserve_8 [0xDCFF] = [0xFF] ∧
    utf8to32 InvalidUnicode.Preserve_8 [0xF0, 0x90, 0x80, 0x00] = some [0x400] ∧
    some [(0x400 : Nat)] ≠ some [0xDCF0, 0xDC90, 0xDC80, 0x00] := by
  decide

/-- Claim C7 is violated by the code at the single scalar value 0x10000: the
boundary of the 3-byte branch of utf32to8 is written c <= 0x10000, so
U+10000 is emitted as the three bytes F0 80 80 (the lead is not even an
E0-pattern and the value cannot be recovered), not as the standard four-byte
encoding F0 90 80 80. -/
theorem c7_minimal_encoding_fails :
    utf32to8 InvalidUnicode.Substitute [0x10000] = [0xF0, 0x80, 0x80] ∧
    [0xF0, 0x80, 0x80] ≠ [0xF0, 0x90, 0x80, 0x80] := by
  decide

/-- Claim C8: implicit_length maps every byte to its declared sequence width
exactly as claimed - 1 for 0x00-0x7F, 2 for 0xC2-0xDF, 3 for 0xE0-0xEF, 4 for
0xF0-0xF4 (including the special case 0xF4), and 0 for every other byte, in
particular 0xC0, 0xC1 and 0xF5-0xFF. -/
theorem c8_implicit_length_table (b : Fin 256) :
    utf8byte.implicit_length b.val =
      (if b.val ≤ 0x7F then 1
       else if 0xC2 ≤ b.val ∧ b.val ≤ 0xDF then 2
       else if 0xE0 ≤ b.val ∧ b.val ≤ 0xEF then 3
       else if 0xF0 ≤ b.val ∧ b.val ≤ 0xF4 then 4
       else 0) := by
  revert b; decide

/-- Claim C9 is violated by the code on the truncated-lead part: all six
converters do return empty output for empty input, and the overlong pair C0
80 is rejected as two invalid units giving two U+FFFD, but for the single
byte 0xF0 the comma expression in the 4-byte case of utf8to32 defeats the
length guard and the source reads s[i + 3] past the end of the buffer -
undefined behavior (modelled as none), not the claimed single U+FFFD. -/
theorem c9_boundary_cases :
    utf8to32 InvalidUnicode.Substitute [] = some [] ∧
    utf32to8 InvalidUnicode.Substitute [] = [] ∧
    utf8to16 InvalidUnicode.Substitute [] = [] ∧
    utf16to8 InvalidUnicode.Substitute [] = [] ∧
    utf16to32 [] = [] ∧
    utf32to16 [] = [] ∧
    utf8to32 InvalidUnicode.Substitute [0xC0, 0x80] = some [0xFFFD, 0xFFFD] ∧
    utf8to32 InvalidUnicode.Substitute [0xF0] = none := by
  decide

/-- Claim C10 as stated is false: for the out-of-range value 0x4010000 the
truncation to 16 bits wraps the first emitted unit back to 0xD800, a valid
high surrogate, and the output 0xD800 0xDC00 is a well-formed surrogate
pair. -/
theorem c10_counterexample :
    utf32to16 [0x4010000] = [0xD800, 0xDC00] ∧
    0x10FFFF < 0x4010000 ∧
    0xD800 ≤ (utf32to16 [0x4010000]).getD 0 0 ∧
    (utf32to16 [0x4010000]).getD 0 0 ≤ 0xDBFF ∧
    0xDC00 ≤ (utf32to16 [0x4010000]).getD 1 0 ∧
    (utf32to16 [0x4010000]).getD 1 0 ≤ 0xDFFF := by
  decide

/-- Claim C10 amended: for every 32-bit value v above 0x10FFFF, utf32to16
still emits exactly the two units given by the split formulas with the first
truncated to 16 bits, with no error and no replacement character; and for
0x10FFFF < v < 0x4010000 the first unit is not a valid high surrogate (for
larger v the truncation can wrap it back into the high-surrogate range). -/
theorem c10_amended_split (v : Nat) (h32 : v < 4294967296) (hv : 0x10FFFF < v) :
    utf32to16 [v] =
      [(0xD800 + ((v - 0x10000) >>> 10)) % 65536, 0xDC00 + (v &&& 0x3FF)] ∧
    (v < 0x4010000 →
      ¬(0xD800 ≤ (0xD800 + ((v - 0x10000) >>> 10)) % 65536 ∧
        (0xD800 + ((v - 0x10000) >>> 10)) % 65536 ≤ 0xDBFF)) := by
  have hand : v &&& 0x3FF ≤ 0x3FF := Nat.and_le_right
  have hsh : (v - 0x10000) >>> 10 = (v - 0x10000) / 1024 := by
    rw [Nat.shiftRight_eq_div_pow]
  constructor
  · have h1 : 0x10000 ≤ v := by omega
    simp only [utf32to16, if_pos h1]
    simp [h1, Nat.mod_eq_of_lt (show 0xDC00 + (v &&& 0x3FF) < 65536 by omega)]
  · intro hlt hcontra
    rw [hsh] at hcontra
    omega

/-- Witness for c10_amended_split at v = 0x110000. -/
theorem c10_amended_split_witness :
    utf32to16 [0x110000] =
      [(0xD800 + ((0x110000 - 0x10000) >>> 10)) % 65536, 0xDC00 + (0x110000 &&& 0x3FF)] ∧
    (0x110000 < 0x4010000 →
      ¬(0xD800 ≤ (0xD800 + ((0x110000 - 0x10000) >>> 10)) % 65536 ∧
        (0xD800 + ((0x110000 - 0x10000) >>> 10)) % 65536 ≤ 0xDBFF)) :=
  c10_amended_split 0x110000 (by decide) (by decide)
